import Mathlib

set_option maxHeartbeats 1000000
set_option maxRecDepth 1000000

/-
  Verification development for the kaonic-radio OTA update agent
  (src/ota/kaonic-ota.py) and its package-building tool
  (src/scripts/create-ota.py).

  The Python code is shallowly embedded: file contents are lists of bytes
  (Nat < 256 intended, arithmetic is explicit mod 2^32 where it matters),
  the persistent device state is an explicit record, external effects
  (systemctl stop/start) are an event trace, and the systemctl is-active
  oracle is a stream of booleans consumed one call at a time.
-/

namespace KaonicOta

/-! ## SHA-256, embedded from hashlib semantics

`sha256sum` (kaonic-ota.py lines 170-175) and `get_file_hash`
(create-ota.py lines 51-56) both stream a file through hashlib's sha256
in fixed-size chunks (4096 and 8192 bytes respectively) and return the
lowercase hex digest.  The hashlib object is modelled by its absorbed
byte stream: `update` appends, `hexdigest` hashes the whole stream. -/

/-- Reduce to a 32-bit word: explicit mod 2^32. -/
def w32 (n : Nat) : Nat := n % 4294967296

/-- Rotate a 32-bit word right by k bits. -/
def rotr32 (x k : Nat) : Nat := w32 ((x >>> k) ||| (x <<< (32 - k)))

/-- SHA-256 big sigma 0. -/
def bigSig0 (x : Nat) : Nat := (rotr32 x 2) ^^^ (rotr32 x 13) ^^^ (rotr32 x 22)

/-- SHA-256 big sigma 1. -/
def bigSig1 (x : Nat) : Nat := (rotr32 x 6) ^^^ (rotr32 x 11) ^^^ (rotr32 x 25)

/-- SHA-256 small sigma 0. -/
def smallSig0 (x : Nat) : Nat := (rotr32 x 7) ^^^ (rotr32 x 18) ^^^ (x >>> 3)

/-- SHA-256 small sigma 1. -/
def smallSig1 (x : Nat) : Nat := (rotr32 x 17) ^^^ (rotr32 x 19) ^^^ (x >>> 10)

/-- SHA-256 choice function; complement is xor against the 32-bit mask. -/
def chooseFn (x y z : Nat) : Nat := (x &&& y) ^^^ ((x ^^^ 4294967295) &&& z)

/-- SHA-256 majority function. -/
def majorityFn (x y z : Nat) : Nat := (x &&& y) ^^^ (x &&& z) ^^^ (y &&& z)

/-- The 64 SHA-256 round constants, written in decimal. -/
def sha256K : List Nat :=
  [1116352408, 1899447441, 3049323471, 3921009573,
   961987163, 1508970993, 2453635748, 2870763221,
   3624381080, 310598401, 607225278, 1426881987,
   1925078388, 2162078206, 2614888103, 3248222580,
   3835390401, 4022224774, 264347078, 604807628,
   770255983, 1249150122, 1555081692, 1996064986,
   2554220882, 2821834349, 2952996808, 3210313671,
   3336571891, 3584528711, 113926993, 338241895,
   666307205, 773529912, 1294757372, 1396182291,
   1695183700, 1986661051, 2177026350, 2456956037,
   2730485921, 2820302411, 3259730800, 3345764771,
   3516065817, 3600352804, 4094571909, 275423344,
   430227734, 506948616, 659060556, 883997877,
   958139571, 1322822218, 1537002063, 1747873779,
   1955562222, 2024104815, 2227730452, 2361852424,
   2428436474, 2756734187, 3204031479, 3329325298]

/-- Working state of the compression function: eight 32-bit words. -/
structure Hsh where
  a : Nat
  b : Nat
  c : Nat
  d : Nat
  e : Nat
  f : Nat
  g : Nat
  h : Nat
deriving Repr, DecidableEq

/-- The SHA-256 initial hash value, written in decimal. -/
def sha256H0 : Hsh :=
  ⟨1779033703, 3144134277, 1013904242, 2773480762,
   1359893119, 2600822924, 528734635, 1541459225⟩

/-- Big-endian 8-byte encoding of a (length) value. -/
def len64be (n : Nat) : List Nat :=
  [(n >>> 56) % 256, (n >>> 48) % 256, (n >>> 40) % 256, (n >>> 32) % 256,
   (n >>> 24) % 256, (n >>> 16) % 256, (n >>> 8) % 256, n % 256]

/-- SHA-256 message padding: 0x80, zeros to 56 mod 64, 8-byte bit length. -/
def sha256pad (msg : List Nat) : List Nat :=
  let L := msg.length
  msg ++ [0x80] ++ List.replicate ((119 - L % 64) % 64) 0 ++ len64be (8 * L)

/-- Assemble a big-endian 32-bit word from a list of bytes. -/
def beWord (bs : List Nat) : Nat := bs.foldl (fun acc b => acc * 256 + b) 0

/-- Fuel-driven worker for `chunksOf`; the fuel only forces structural
termination and is irrelevant once it bounds the list length. -/
def chunksOfFuel (fuel n : Nat) (l : List α) : List (List α) :=
  match fuel, l with
  | _, [] => []
  | 0, _ :: _ => []
  | fuel + 1, x :: xs =>
    match n with
    | 0 => []
    | n + 1 => ((x :: xs).take (n + 1)) :: chunksOfFuel fuel (n + 1) ((x :: xs).drop (n + 1))

/-- Split a list into consecutive chunks of a fixed size, as repeated
`read(n)` calls produce them; size 0 mirrors a `read(0)` sentinel that
ends the iteration at once. -/
def chunksOf (n : Nat) (l : List α) : List (List α) :=
  chunksOfFuel l.length n l

/-- Extend a 16-word block one step of the message schedule. -/
def schedStep (ws : List Nat) : List Nat :=
  let n := ws.length
  ws ++ [w32 (smallSig1 (ws.getD (n - 2) 0) + ws.getD (n - 7) 0 +
              smallSig0 (ws.getD (n - 15) 0) + ws.getD (n - 16) 0)]

/-- Iterate the schedule extension. -/
def schedule (ws : List Nat) : Nat → List Nat
  | 0 => ws
  | k + 1 => schedStep (schedule ws k)

/-- One SHA-256 round. -/
def roundFn (st : Hsh) (ki wi : Nat) : Hsh :=
  let t1 := w32 (st.h + bigSig1 st.e + chooseFn st.e st.f st.g + ki + wi)
  let t2 := w32 (bigSig0 st.a + majorityFn st.a st.b st.c)
  ⟨w32 (t1 + t2), st.a, st.b, st.c, w32 (st.d + t1), st.e, st.f, st.g⟩

/-- Compress one 16-word block into the running hash state. -/
def compressBlock (st : Hsh) (block : List Nat) : Hsh :=
  let ws := schedule block 48
  let fin := (sha256K.zip ws).foldl (fun s p => roundFn s p.1 p.2) st
  ⟨w32 (st.a + fin.a), w32 (st.b + fin.b), w32 (st.c + fin.c), w32 (st.d + fin.d),
   w32 (st.e + fin.e), w32 (st.f + fin.f), w32 (st.g + fin.g), w32 (st.h + fin.h)⟩

/-- SHA-256 over a byte list, producing the eight final words. -/
def sha256words (msg : List Nat) : Hsh :=
  (chunksOf 16 ((chunksOf 4 (sha256pad msg)).map beWord)).foldl compressBlock sha256H0

/-- The lowercase hex digit character for a nibble: digits for values
below ten, letters from `a` upward for the rest. -/
def hexDigitChar (n : Nat) : Char :=
  Char.ofNat (if n < 10 then 48 + n else 87 + n)

/-- Eight lowercase hex characters of one 32-bit word. -/
def wordHex (w : Nat) : List Char :=
  [hexDigitChar ((w >>> 28) &&& 15), hexDigitChar ((w >>> 24) &&& 15),
   hexDigitChar ((w >>> 20) &&& 15), hexDigitChar ((w >>> 16) &&& 15),
   hexDigitChar ((w >>> 12) &&& 15), hexDigitChar ((w >>> 8) &&& 15),
   hexDigitChar ((w >>> 4) &&& 15), hexDigitChar (w &&& 15)]

/-- The hexdigest of a final hash state: 64 lowercase hex characters. -/
def hexdigestOf (st : Hsh) : String :=
  ⟨wordHex st.a ++ wordHex st.b ++ wordHex st.c ++ wordHex st.d ++
   wordHex st.e ++ wordHex st.f ++ wordHex st.g ++ wordHex st.h⟩

/-- Lowercase SHA-256 hex digest of a whole byte list (hashlib
`sha256(data).hexdigest()`). -/
def sha256hexBytes (msg : List Nat) : String := hexdigestOf (sha256words msg)

/-- Embeds `sha256sum` (kaonic-ota.py lines 170-175): hashlib object fed
4096-byte chunks from repeated `f.read(4096)`; the absorbed stream is the
fold of `update` (append) over the chunks. -/
def sha256sum (content : List Nat) : String :=
  sha256hexBytes ((chunksOf 4096 content).foldl (fun acc c => acc ++ c) [])

/-- Embeds `get_file_hash` (create-ota.py lines 51-56): same streaming
with 8192-byte chunks from the walrus `f.read(8192)` loop. -/
def get_file_hash (content : List Nat) : String :=
  sha256hexBytes ((chunksOf 8192 content).foldl (fun acc c => acc ++ c) [])

/-! ### Chunking lemmas -/

theorem foldl_append_eq (cs : List (List α)) (acc : List α) :
    cs.foldl (fun acc c => acc ++ c) acc = acc ++ cs.flatten := by
  induction cs generalizing acc with
  | nil => simp
  | cons c cs ih => simp [ih, List.append_assoc]

theorem chunksOfFuel_congr :
    ∀ (f g n : Nat) (l : List α), l.length ≤ f → l.length ≤ g →
      chunksOfFuel f n l = chunksOfFuel g n l := by
  intro f
  induction f with
  | zero =>
    intro g n l hf hg
    have : l = [] := List.length_eq_zero.mp (Nat.le_zero.mp hf)
    subst this
    cases g <;> simp [chunksOfFuel]
  | succ f ih =>
    intro g n l hf hg
    cases l with
    | nil => cases g <;> simp [chunksOfFuel]
    | cons x xs =>
      cases g with
      | zero => simp at hg
      | succ g =>
        cases n with
        | zero => simp [chunksOfFuel]
        | succ n =>
          simp only [chunksOfFuel, List.cons.injEq, true_and]
          apply ih
          · simp only [List.drop_succ_cons, List.length_drop]
            simp only [List.length_cons] at hf
            omega
          · simp only [List.drop_succ_cons, List.length_drop]
            simp only [List.length_cons] at hg
            omega

theorem chunksOf_nil (n : Nat) : chunksOf n ([] : List α) = [] := rfl

theorem chunksOf_cons (n : Nat) (x : α) (xs : List α) :
    chunksOf (n + 1) (x :: xs) =
      ((x :: xs).take (n + 1)) :: chunksOf (n + 1) ((x :: xs).drop (n + 1)) := by
  show chunksOfFuel (x :: xs).length (n + 1) (x :: xs) = _
  simp only [List.length_cons, chunksOfFuel]
  rw [chunksOf]
  congr 1
  apply chunksOfFuel_congr
  · simp only [List.drop_succ_cons, List.length_drop, List.length_cons]
    omega
  · exact Nat.le_refl _

theorem chunksOf_flatten_bounded (n : Nat) :
    ∀ (k : Nat) (l : List α), l.length ≤ k → (chunksOf (n + 1) l).flatten = l := by
  intro k
  induction k with
  | zero =>
    intro l hl
    have : l = [] := List.length_eq_zero.mp (Nat.le_zero.mp hl)
    subst this
    simp [chunksOf_nil]
  | succ k ih =>
    intro l hl
    cases l with
    | nil => simp [chunksOf_nil]
    | cons x xs =>
      rw [chunksOf_cons, List.flatten_cons, ih ((x :: xs).drop (n + 1)), List.take_append_drop]
      simp only [List.drop_succ_cons, List.length_drop]
      simp only [List.length_cons] at hl
      omega

theorem chunksOf_flatten (n : Nat) (l : List α) :
    (chunksOf (n + 1) l).flatten = l :=
  chunksOf_flatten_bounded n l.length l (Nat.le_refl _)

/-! ## Python string strip

Models `str.strip()` on the ASCII whitespace classes Python removes. -/

/-- Characters removed by Python `str.strip()` (ASCII subset): tab,
newline, vertical tab, form feed, carriage return, space, by code
point. -/
def isPySpace (c : Char) : Bool :=
  [9, 10, 11, 12, 13, 32].contains c.toNat

/-- Embeds Python `str.strip()`: drop whitespace from both ends. -/
def pyStrip (s : String) : String :=
  ⟨((s.data.dropWhile isPySpace).reverse.dropWhile isPySpace).reverse⟩

/-! ## Signature verifier

`validate_signature` (kaonic-ota.py lines 52-77).  The cryptography
library is external, so its behaviour on one concrete (key, message,
signature) triple is an environment of `Except` outcomes: loading the
PEM key (which yields an RSA key, an Ed25519 key, or some other type, or
raises), reading the two files, and the two possible `verify` calls
(success, or `InvalidSignature`, or another exception). -/

/-- Exceptions distinguishable by the two `except` clauses. -/
inductive PyExn
  | invalidSignature
  | otherExn (msg : String)
deriving DecidableEq

/-- The tag of a successfully parsed public key, per the `isinstance`
dispatch in the source. -/
inductive LoadedKey
  | rsaKey
  | ed25519Key
  | otherKey
deriving DecidableEq

instance {ε α : Type} [DecidableEq ε] [DecidableEq α] : DecidableEq (Except ε α) :=
  fun x y =>
    match x, y with
    | .ok a, .ok b =>
      if h : a = b then isTrue (by rw [h]) else isFalse (by intro hc; cases hc; exact h rfl)
    | .error a, .error b =>
      if h : a = b then isTrue (by rw [h]) else isFalse (by intro hc; cases hc; exact h rfl)
    | .ok _, .error _ => isFalse (by intro hc; cases hc)
    | .error _, .ok _ => isFalse (by intro hc; cases hc)

/-- Outcomes of the external calls made by `validate_signature` on one
concrete input triple. -/
structure SigEnv where
  loadKey : Except PyExn LoadedKey
  readMessage : Except PyExn Unit
  readSig : Except PyExn Unit
  rsaVerify : Except PyExn Unit
  edVerify : Except PyExn Unit
deriving DecidableEq

/-- The body of the `try` block of `validate_signature`: load key, read
message bytes, read signature bytes, dispatch on key type, verify.
Exceptions propagate. -/
def validateSignatureTry (env : SigEnv) : Except PyExn Bool := do
  let key ← env.loadKey
  let _ ← env.readMessage
  let _ ← env.readSig
  match key with
  | .rsaKey => do
      let _ ← env.rsaVerify
      return true
  | .ed25519Key => do
      let _ ← env.edVerify
      return true
  | .otherKey => return false

/-- Embeds `validate_signature` (lines 52-77): the try body wrapped in
the two `except` handlers, both of which return `False`. -/
def validate_signature (env : SigEnv) : Bool :=
  match validateSignatureTry env with
  | .ok b => b
  | .error .invalidSignature => false
  | .error (.otherExn _) => false

/-! ## Persistent device state and service events -/

/-- The persistent files the agent owns.  File contents are byte lists
(binaries) or text (metadata); `none` means the file does not exist.
`verifyKeyExists` models the `VERIFY_KEY_PATH.exists()` check; the key's
cryptographic behaviour enters through `SigEnv`. -/
structure DeviceState where
  metadataDirExists : Bool
  app : Option (List Nat)
  backup : Option (List Nat)
  hashFile : Option String
  versionFile : Option String
  verifyKeyExists : Bool
deriving DecidableEq

/-- Calls made to systemctl for the managed service, in order. -/
inductive SvcEv
  | stop
  | start
deriving DecidableEq

/-- Embeds `backup_current` (lines 203-208): delete an existing backup,
then copy the active binary to the backup path if one exists. -/
def backup_current (st : DeviceState) : DeviceState :=
  let st1 := if st.backup.isSome then { st with backup := none } else st
  if st1.app.isSome then { st1 with backup := st1.app } else st1

/-- Embeds `restore_backup` (lines 210-216): copy the backup over the
active binary if a backup exists, otherwise only log. -/
def restore_backup (st : DeviceState) : DeviceState :=
  if st.backup.isSome then { st with app := st.backup } else st

/-! ## Startup reconciler -/

/-- The `expected_hash` the reconciler reads:
`HASH_PATH.read_text().strip() if HASH_PATH.exists() else ""`. -/
def reconExpected (st : DeviceState) : String :=
  match st.hashFile with
  | some t => pyStrip t
  | none => ""

/-- The `actual_hash` the reconciler computes:
`sha256sum(APP_PATH) if APP_PATH.exists() else ""`. -/
def reconActual (st : DeviceState) : String :=
  match st.app with
  | some c => sha256sum c
  | none => ""

/-- Embeds `validate_app_file` (lines 32-50), the startup reconciler.
Returns the resulting device state and the systemctl calls issued. -/
def validate_app_file (st : DeviceState) : DeviceState × List SvcEv :=
  if st.metadataDirExists = false then
    ({ st with metadataDirExists := true }, [])
  else if st.app = none ∧ st.backup = none then
    (st, [])
  else if (st.app = none ∨ st.hashFile = none) ∨ reconExpected st ≠ reconActual st then
    (restore_backup st, [.stop, .start])
  else
    (st, [])

/-! ## Health probe

The loop at lines 143-150 plus the deciding check at line 150.  The
`systemctl is-active` oracle is a stream indexed by the number of
is-running calls made so far. -/

/-- Index of the next is-running call after the `for _ in range(fuel)`
loop exits, starting from call index `idx`: an active report sleeps and
continues, an inactive report breaks. -/
def probeLoopIdx (running : Nat → Bool) : Nat → Nat → Nat
  | 0, idx => idx
  | fuel + 1, idx => if running idx then probeLoopIdx running fuel (idx + 1) else idx + 1

/-- Call index of the deciding `is_kaonic_running()` check at line 150. -/
def uploadProbeIdx (running : Nat → Bool) : Nat := probeLoopIdx running 10 0

/-- The health verdict of the upload transaction: the result of the
deciding is-running call after the 10-iteration loop. -/
def uploadProbeResult (running : Nat → Bool) : Bool :=
  running (uploadProbeIdx running)

/-- Modelled from the spec: `probeHealthy(maxAttempts, interval)` as the
spec describes it, polling `isRunning` up to `maxAttempts` times and
short-circuiting to true on the first success, returning false only when
every attempt reports not active.  Declared for comparison with the
source's probe; it is not part of the source. -/
def probeHealthySpec (running : Nat → Bool) : Nat → Nat → Bool
  | 0, _ => false
  | n + 1, idx => if running idx then true else probeHealthySpec running n (idx + 1)

/-! ## Upload transaction -/

/-- One upload request after multipart decoding: presence and declared
content type of the uploaded file, whether the archive extracts, the
four extracted artifacts (`none` when missing from the archive), and the
crypto environment for the signature check on this candidate. -/
structure UploadRequest where
  hasFile : Bool
  contentType : String
  zipOk : Bool
  binary : Option (List Nat)
  hashText : Option String
  versionText : Option String
  sigFile : Option (List Nat)
  sigEnv : SigEnv
deriving DecidableEq

/-- A caller-visible JSON reply: detail message and HTTP status
(`jsonify` without an explicit code is 200). -/
structure HttpReply where
  detail : String
  status : Nat
deriving DecidableEq

/-- Result of one upload transaction: the reply, the persistent state
afterwards, and the systemctl calls issued, in order. -/
structure UploadOutcome where
  reply : HttpReply
  state : DeviceState
  events : List SvcEv
deriving DecidableEq

/-- Embeds `upload_ota` (lines 79-159): request checks, archive
validation, the integrity and authenticity gate, then
stop/backup/install/start, the health probe, and commit or rollback. -/
def upload_ota (req : UploadRequest) (st : DeviceState) (running : Nat → Bool) :
    UploadOutcome :=
  if req.hasFile = false then ⟨⟨"No file uploaded", 400⟩, st, []⟩
  else if req.contentType ≠ "application/x-zip-compressed" then
    ⟨⟨"Only ZIP files accepted", 400⟩, st, []⟩
  else if st.verifyKeyExists = false then
    ⟨⟨"OTA certificate is not present", 500⟩, st, []⟩
  else if req.zipOk = false then ⟨⟨"Invalid ZIP file", 400⟩, st, []⟩
  else
    match req.binary, req.hashText, req.versionText, req.sigFile with
    | none, _, _, _ => ⟨⟨"Missing kaonic-commd in OTA package", 400⟩, st, []⟩
    | some _, none, _, _ => ⟨⟨"Missing kaonic-commd.sha256 in OTA package", 400⟩, st, []⟩
    | some _, some _, none, _ =>
      ⟨⟨"Missing kaonic-commd.version in OTA package", 400⟩, st, []⟩
    | some _, some _, some _, none =>
      ⟨⟨"Missing kaonic-commd.sig in OTA package", 400⟩, st, []⟩
    | some bin, some hashText, some versionText, some _ =>
      if pyStrip hashText ≠ sha256sum bin then ⟨⟨"SHA256 hash mismatch", 400⟩, st, []⟩
      else if validate_signature req.sigEnv = false then
        ⟨⟨"SHA256 hash mismatch", 400⟩, st, []⟩
      else
        let st1 := backup_current st
        let st2 := { st1 with app := some bin }
        if uploadProbeResult running then
          ⟨⟨"Update successful", 200⟩,
           { st2 with hashFile := some hashText, versionFile := some versionText },
           [.stop, .start]⟩
        else
          ⟨⟨"Failed to start new app, rollback done", 500⟩, restore_backup st2,
           [.stop, .start, .start]⟩

/-- The replies `upload_ota` can produce, read off its return points. -/
def uploadReplies : List HttpReply :=
  [⟨"No file uploaded", 400⟩,
   ⟨"Only ZIP files accepted", 400⟩,
   ⟨"OTA certificate is not present", 500⟩,
   ⟨"Invalid ZIP file", 400⟩,
   ⟨"Missing kaonic-commd in OTA package", 400⟩,
   ⟨"Missing kaonic-commd.sha256 in OTA package", 400⟩,
   ⟨"Missing kaonic-commd.version in OTA package", 400⟩,
   ⟨"Missing kaonic-commd.sig in OTA package", 400⟩,
   ⟨"SHA256 hash mismatch", 400⟩,
   ⟨"Update successful", 200⟩,
   ⟨"Failed to start new app, rollback done", 500⟩]

/-- Embeds `get_version` (lines 161-168) for completeness of the query
interface: absent metadata reports a null pair. -/
def get_version (st : DeviceState) : Option (String × String) :=
  match st.versionFile, st.hashFile with
  | some v, some h => some (pyStrip v, pyStrip h)
  | _, _ => none

/-! ## Helper lemmas -/

theorem backup_current_spec (st : DeviceState) :
    backup_current st = { st with backup := if st.app.isSome then st.app else none } := by
  obtain ⟨md, ap, bk, hf, vf, vk⟩ := st
  cases bk <;> cases ap <;> rfl

theorem restore_backup_spec (st : DeviceState) :
    restore_backup st = { st with app := if st.backup.isSome then st.backup else st.app } := by
  obtain ⟨md, ap, bk, hf, vf, vk⟩ := st
  cases bk <;> rfl

theorem probeLoopIdx_all_true (running : Nat → Bool) :
    ∀ (fuel idx : Nat), (∀ i, i < fuel → running (idx + i) = true) →
      probeLoopIdx running fuel idx = idx + fuel := by
  intro fuel
  induction fuel with
  | zero => intro idx _; simp [probeLoopIdx]
  | succ fuel ih =>
    intro idx h
    have h0 : running idx = true := by simpa using h 0 (Nat.succ_pos fuel)
    have hrest : ∀ i, i < fuel → running (idx + 1 + i) = true := by
      intro i hi
      have := h (i + 1) (by omega)
      simpa [Nat.add_assoc, Nat.add_comm 1 i] using this
    simp only [probeLoopIdx, h0, ite_true]
    rw [ih (idx + 1) hrest]
    omega

theorem probeLoopIdx_first_false (running : Nat → Bool) :
    ∀ (fuel k idx : Nat), k < fuel → running (idx + k) = false →
      (∀ j, j < k → running (idx + j) = true) →
      probeLoopIdx running fuel idx = idx + k + 1 := by
  intro fuel
  induction fuel with
  | zero => intro k idx hk; omega
  | succ fuel ih =>
    intro k idx hk hkf hall
    cases k with
    | zero =>
      simp only [Nat.add_zero] at hkf
      simp [probeLoopIdx, hkf]
    | succ k =>
      have h0 : running idx = true := by simpa using hall 0 (Nat.succ_pos k)
      simp only [probeLoopIdx, h0, ite_true]
      have hkf1 : running (idx + 1 + k) = false := by
        have : idx + 1 + k = idx + (k + 1) := by omega
        rw [this]; exact hkf
      have hall1 : ∀ j, j < k → running (idx + 1 + j) = true := by
        intro j hj
        have := hall (j + 1) (by omega)
        have heq : idx + 1 + j = idx + (j + 1) := by omega
        rw [heq]; exact this
      rw [ih k (idx + 1) (by omega) hkf1 hall1]
      omega

/-- The gate-failure behaviour of `upload_ota`: a well-formed package
that fails the digest comparison, or passes it and fails signature
verification, yields the mismatch reply with state and events untouched. -/
theorem uploadGateFail (req : UploadRequest) (st : DeviceState) (running : Nat → Bool)
    (bin : List Nat) (hashText versionText : String) (sigBytes : List Nat)
    (hfile : req.hasFile = true)
    (hct : req.contentType = "application/x-zip-compressed")
    (hkey : st.verifyKeyExists = true)
    (hzip : req.zipOk = true)
    (hbin : req.binary = some bin)
    (hhash : req.hashText = some hashText)
    (hver : req.versionText = some versionText)
    (hsig : req.sigFile = some sigBytes)
    (hfail : pyStrip hashText ≠ sha256sum bin ∨ validate_signature req.sigEnv = false) :
    upload_ota req st running = ⟨⟨"SHA256 hash mismatch", 400⟩, st, []⟩ := by
  unfold upload_ota
  rw [hfile, hct, hkey, hzip, hbin, hhash, hver, hsig]
  rcases hfail with h | h
  · simp [h]
  · by_cases hm : pyStrip hashText = sha256sum bin <;> simp [hm, h]

/-- The gate-success behaviour of `upload_ota`: a well-formed package
passing both checks runs stop, backup, install, start, the probe, and
then commits or rolls back on the deciding is-running call. -/
theorem uploadGatePass (req : UploadRequest) (st : DeviceState) (running : Nat → Bool)
    (bin : List Nat) (hashText versionText : String) (sigBytes : List Nat)
    (hfile : req.hasFile = true)
    (hct : req.contentType = "application/x-zip-compressed")
    (hkey : st.verifyKeyExists = true)
    (hzip : req.zipOk = true)
    (hbin : req.binary = some bin)
    (hhash : req.hashText = some hashText)
    (hver : req.versionText = some versionText)
    (hsig : req.sigFile = some sigBytes)
    (hmatch : pyStrip hashText = sha256sum bin)
    (hsigok : validate_signature req.sigEnv = true) :
    upload_ota req st running =
      if uploadProbeResult running then
        ⟨⟨"Update successful", 200⟩,
         { backup_current st with
             app := some bin, hashFile := some hashText, versionFile := some versionText },
         [.stop, .start]⟩
      else
        ⟨⟨"Failed to start new app, rollback done", 500⟩,
         restore_backup { backup_current st with app := some bin },
         [.stop, .start, .start]⟩ := by
  unfold upload_ota
  rw [hfile, hct, hkey, hzip, hbin, hhash, hver, hsig]
  simp [hmatch, hsigok]

/-- Every run of `upload_ota` is a rejection that leaves state and
events empty, a committed install, or a rollback, with the reply drawn
from the fixed reply list. -/
theorem upload_ota_outcome (req : UploadRequest) (st : DeviceState) (running : Nat → Bool) :
    ((upload_ota req st running).state = st ∧ (upload_ota req st running).events = [] ∧
       (upload_ota req st running).reply ∈ uploadReplies) ∨
    (∃ bin ht vt,
       req.binary = some bin ∧ req.hashText = some ht ∧ req.versionText = some vt ∧
       uploadProbeResult running = true ∧
       upload_ota req st running =
         ⟨⟨"Update successful", 200⟩,
          { backup_current st with
              app := some bin, hashFile := some ht, versionFile := some vt },
          [.stop, .start]⟩) ∨
    (∃ bin,
       req.binary = some bin ∧ uploadProbeResult running = false ∧
       upload_ota req st running =
         ⟨⟨"Failed to start new app, rollback done", 500⟩,
          restore_backup { backup_current st with app := some bin },
          [.stop, .start, .start]⟩) := by
  by_cases h1 : req.hasFile = false
  · left
    unfold upload_ota
    rw [h1]
    simp [uploadReplies]
  by_cases h2 : req.contentType = "application/x-zip-compressed"
  pick_goal 2
  · left
    unfold upload_ota
    rw [if_neg h1, if_pos h2]
    simp [uploadReplies]
  by_cases h3 : st.verifyKeyExists = false
  · left
    unfold upload_ota
    rw [if_neg h1, if_neg (by simp [h2]), if_pos h3]
    simp [uploadReplies]
  by_cases h4 : req.zipOk = false
  · left
    unfold upload_ota
    rw [if_neg h1, if_neg (by simp [h2]), if_neg h3, if_pos h4]
    simp [uploadReplies]
  have hfile : req.hasFile = true := by revert h1; cases req.hasFile <;> simp
  have hkey : st.verifyKeyExists = true := by revert h3; cases st.verifyKeyExists <;> simp
  have hzip : req.zipOk = true := by revert h4; cases req.zipOk <;> simp
  rcases hrb : req.binary with _ | bin
  · left
    unfold upload_ota
    rw [if_neg h1, if_neg (by simp [h2]), if_neg h3, if_neg h4, hrb]
    simp [uploadReplies]
  rcases hrh : req.hashText with _ | ht
  · left
    unfold upload_ota
    rw [if_neg h1, if_neg (by simp [h2]), if_neg h3, if_neg h4, hrb, hrh]
    simp [uploadReplies]
  rcases hrv : req.versionText with _ | vt
  · left
    unfold upload_ota
    rw [if_neg h1, if_neg (by simp [h2]), if_neg h3, if_neg h4, hrb, hrh, hrv]
    simp [uploadReplies]
  rcases hrs : req.sigFile with _ | sigBytes
  · left
    unfold upload_ota
    rw [if_neg h1, if_neg (by simp [h2]), if_neg h3, if_neg h4, hrb, hrh, hrv, hrs]
    simp [uploadReplies]
  by_cases hm : pyStrip ht = sha256sum bin
  pick_goal 2
  · left
    rw [uploadGateFail req st running bin ht vt sigBytes hfile h2 hkey hzip hrb hrh hrv hrs
      (Or.inl hm)]
    simp [uploadReplies]
  by_cases hs : validate_signature req.sigEnv = true
  pick_goal 2
  · left
    have hs' : validate_signature req.sigEnv = false := by
      revert hs; cases validate_signature req.sigEnv <;> simp
    rw [uploadGateFail req st running bin ht vt sigBytes hfile h2 hkey hzip hrb hrh hrv hrs
      (Or.inr hs')]
    simp [uploadReplies]
  have hpass := uploadGatePass req st running bin ht vt sigBytes hfile h2 hkey hzip hrb hrh
    hrv hrs hm hs
  by_cases hp : uploadProbeResult running = true
  · right; left
    refine ⟨bin, ht, vt, rfl, rfl, rfl, hp, ?_⟩
    rw [hpass, if_pos hp]
  · right; right
    have hp' : uploadProbeResult running = false := by
      revert hp; cases uploadProbeResult running <;> simp
    refine ⟨bin, rfl, hp', ?_⟩
    rw [hpass, if_neg (by simp [hp'])]

/-! ## Concrete fixtures used by witnesses and counterexamples -/

/-- A crypto environment in which the key parses as Ed25519 and every
external call succeeds. -/
def sigEnvOk : SigEnv := ⟨.ok .ed25519Key, .ok (), .ok (), .ok (), .ok ()⟩

/-- A crypto environment in which loading the PEM key raises. -/
def sigEnvBadPem : SigEnv := ⟨.error (.otherExn "bad pem"), .ok (), .ok (), .ok (), .ok ()⟩

/-- A well-formed candidate package whose digest file matches its (empty)
binary and whose signature verifies. -/
def pkgGood : UploadRequest :=
  ⟨true, "application/x-zip-compressed", true, some [], some (sha256hexBytes []),
   some "v1.0.0", some [1], sigEnvOk⟩

/-- A well-formed candidate package whose digest file does not match its
binary. -/
def pkgBadHash : UploadRequest :=
  ⟨true, "application/x-zip-compressed", true, some [], some "ffff", some "v1.0.0",
   some [1], sigEnvOk⟩

/-- A well-formed candidate package with a matching digest but a failing
signature verification. -/
def pkgBadSig : UploadRequest :=
  ⟨true, "application/x-zip-compressed", true, some [], some (sha256hexBytes []),
   some "v1.0.0", some [1], sigEnvBadPem⟩

/-- A device that has never installed anything; the trusted key is
provisioned. -/
def stFresh : DeviceState := ⟨true, none, none, none, none, true⟩

/-- A device with a committed good binary `[7]` and recorded metadata. -/
def stCommitted : DeviceState := ⟨true, some [7], none, some "old-digest", some "v0.1.0", true⟩

/-! ## Claims -/

/-- C1: a candidate that reaches the verification gate and fails the
integrity check (claimed digest differs from the computed digest of the
extracted binary) or the authenticity check (signature verification
returns false) aborts with no persistent-state change: the device state
after the attempt equals the state before it, so Active Binary, Backup
Binary, Recorded Digest and Recorded Version are byte-identical, and no
systemctl stop or start call is issued. -/
theorem C1_no_mutation_before_gate (req : UploadRequest) (st : DeviceState)
    (running : Nat → Bool) (bin : List Nat) (hashText versionText : String)
    (sigBytes : List Nat)
    (hfile : req.hasFile = true)
    (hct : req.contentType = "application/x-zip-compressed")
    (hkey : st.verifyKeyExists = true)
    (hzip : req.zipOk = true)
    (hbin : req.binary = some bin)
    (hhash : req.hashText = some hashText)
    (hver : req.versionText = some versionText)
    (hsig : req.sigFile = some sigBytes)
    (hfail : pyStrip hashText ≠ sha256sum bin ∨ validate_signature req.sigEnv = false) :
    (upload_ota req st running).state = st ∧ (upload_ota req st running).events = [] := by
  rw [uploadGateFail req st running bin hashText versionText sigBytes hfile hct hkey hzip
    hbin hhash hver hsig hfail]
  exact ⟨rfl, rfl⟩

/-- Witness for C1 at a concrete failing package and a committed device. -/
theorem C1_no_mutation_before_gate_witness :
    (upload_ota pkgBadHash stCommitted (fun _ => false)).state = stCommitted ∧
    (upload_ota pkgBadHash stCommitted (fun _ => false)).events = [] :=
  C1_no_mutation_before_gate pkgBadHash stCommitted (fun _ => false) [] "ffff" "v1.0.0" [1]
    rfl rfl rfl rfl rfl rfl rfl rfl (Or.inl (by decide))

/-- C2: with a committed good binary G installed, a candidate that
passes both verification checks but whose service never reports active
ends with the Active Binary restored to G from the Backup Binary, the
Recorded Digest and Recorded Version untouched, the service started
again after the restore, and a failure reply to the caller. -/
theorem C2_rollback_correctness (req : UploadRequest) (st : DeviceState)
    (running : Nat → Bool) (G bin : List Nat) (hashText versionText : String)
    (sigBytes : List Nat)
    (happ : st.app = some G)
    (hfile : req.hasFile = true)
    (hct : req.contentType = "application/x-zip-compressed")
    (hkey : st.verifyKeyExists = true)
    (hzip : req.zipOk = true)
    (hbin : req.binary = some bin)
    (hhash : req.hashText = some hashText)
    (hver : req.versionText = some versionText)
    (hsig : req.sigFile = some sigBytes)
    (hmatch : pyStrip hashText = sha256sum bin)
    (hsigok : validate_signature req.sigEnv = true)
    (hdown : ∀ i, running i = false) :
    (upload_ota req st running).state.app = some G ∧
    (upload_ota req st running).state.backup = some G ∧
    (upload_ota req st running).state.hashFile = st.hashFile ∧
    (upload_ota req st running).state.versionFile = st.versionFile ∧
    (upload_ota req st running).events = [.stop, .start, .start] ∧
    (upload_ota req st running).reply = ⟨"Failed to start new app, rollback done", 500⟩ := by
  have hp : uploadProbeResult running = false := hdown _
  rw [uploadGatePass req st running bin hashText versionText sigBytes hfile hct hkey hzip
    hbin hhash hver hsig hmatch hsigok, if_neg (by simp [hp])]
  simp [restore_backup_spec, backup_current_spec, happ]

/-- Witness for C2 at a concrete good package, a committed device, and a
service that never reports active. -/
theorem C2_rollback_correctness_witness :
    (upload_ota pkgGood stCommitted (fun _ => false)).state.app = some [7] ∧
    (upload_ota pkgGood stCommitted (fun _ => false)).state.backup = some [7] ∧
    (upload_ota pkgGood stCommitted (fun _ => false)).state.hashFile =
      stCommitted.hashFile ∧
    (upload_ota pkgGood stCommitted (fun _ => false)).state.versionFile =
      stCommitted.versionFile ∧
    (upload_ota pkgGood stCommitted (fun _ => false)).events = [.stop, .start, .start] ∧
    (upload_ota pkgGood stCommitted (fun _ => false)).reply =
      ⟨"Failed to start new app, rollback done", 500⟩ :=
  C2_rollback_correctness pkgGood stCommitted (fun _ => false) [7] [] (sha256hexBytes [])
    "v1.0.0" [1] rfl rfl rfl rfl rfl rfl rfl rfl rfl (by decide) rfl (fun _ => rfl)

/-- C3 (counterexample): on a service trace that is active at the first
is-running call and inactive at every later one, the probe as the claim
describes it (short-circuit to true on the first success) reports
healthy, but the transaction's actual health verdict is false. -/
theorem C3_counterexample :
    probeHealthySpec (fun i => i == 0) 10 0 = true ∧
    uploadProbeResult (fun i => i == 0) = false := by decide

/-- C3 (amended): the health check loops over up to 10 is-running calls,
sleeping and continuing on an active report and breaking on the first
inactive one; the verdict is one further deciding is-running call after
the loop, so a service active on all 10 polls is judged by call 10, and
a service first inactive at poll k is judged by call k+1: the code
requires the service to be active at the end, it does not short-circuit
to healthy on the first active report. -/
theorem C3_probe_recheck_semantics (running : Nat → Bool) :
    ((∀ i, i < 10 → running i = true) → uploadProbeResult running = running 10) ∧
    (∀ k, k < 10 → running k = false → (∀ j, j < k → running j = true) →
      uploadProbeResult running = running (k + 1)) := by
  constructor
  · intro h
    unfold uploadProbeResult uploadProbeIdx
    rw [probeLoopIdx_all_true running 10 0 (by intro i hi; simpa using h i hi)]
  · intro k hk hkf hall
    unfold uploadProbeResult uploadProbeIdx
    rw [probeLoopIdx_first_false running 10 k 0 hk (by simpa using hkf)
      (by intro j hj; simpa using hall j hj)]
    simp

/-- Witness for the amended C3 on an always-active trace. -/
theorem C3_probe_recheck_semantics_witness :
    uploadProbeResult (fun _ => true) = true :=
  (C3_probe_recheck_semantics (fun _ => true)).1 (fun _ _ => rfl)

/-- C4: the startup reconciler: when the metadata directory does not
exist it only creates it; otherwise, when at least one of Active Binary
and Backup Binary exists, it stops the service, applies the
restore-from-backup step, and restarts the service whenever the Active
Binary is absent, the Recorded Digest file is absent, or the recorded
and computed digests differ; and when both files exist and the digests
match it performs no mutation and issues no service call. -/
theorem C4_startup_reconciler (st : DeviceState) :
    (st.metadataDirExists = false →
      validate_app_file st = ({ st with metadataDirExists := true }, [])) ∧
    (st.metadataDirExists = true → (st.app ≠ none ∨ st.backup ≠ none) →
      (((st.app = none ∨ st.hashFile = none) ∨ reconExpected st ≠ reconActual st) →
        validate_app_file st = (restore_backup st, [.stop, .start])) ∧
      (st.app ≠ none → st.hashFile ≠ none → reconExpected st = reconActual st →
        validate_app_file st = (st, []))) := by
  constructor
  · intro h
    unfold validate_app_file
    rw [if_pos h]
  · intro hmd hsome
    have hnotboth : ¬(st.app = none ∧ st.backup = none) := by
      rcases hsome with h | h <;> intro hc <;> [exact h hc.1; exact h hc.2]
    constructor
    · intro hcond
      unfold validate_app_file
      rw [if_neg (by simp [hmd]), if_neg hnotboth, if_pos hcond]
    · intro ha hh hmatch
      unfold validate_app_file
      rw [if_neg (by simp [hmd]), if_neg hnotboth,
        if_neg (by push_neg; exact ⟨⟨ha, hh⟩, hmatch⟩)]

/-- Witness for C4 on a fresh device without a metadata directory. -/
theorem C4_startup_reconciler_witness :
    validate_app_file ⟨false, none, none, none, none, false⟩ =
      ((⟨true, none, none, none, none, false⟩ : DeviceState), ([] : List SvcEv)) :=
  (C4_startup_reconciler ⟨false, none, none, none, none, false⟩).1 rfl

/-- C5: `validate_signature` never propagates an exception and fails
closed: every exceptional run of its try body is normalized to false, a
key that parses as neither RSA nor Ed25519 yields false, and the result
is true exactly when the key loads as RSA or Ed25519, both file reads
succeed, and the corresponding cryptographic verification call
succeeds. -/
theorem C5_validate_signature_fail_closed (env : SigEnv) :
    (∀ e, validateSignatureTry env = .error e → validate_signature env = false) ∧
    (env.loadKey = .ok .otherKey → validate_signature env = false) ∧
    (validate_signature env = true ↔
      env.readMessage = .ok () ∧ env.readSig = .ok () ∧
      ((env.loadKey = .ok .rsaKey ∧ env.rsaVerify = .ok ()) ∨
       (env.loadKey = .ok .ed25519Key ∧ env.edVerify = .ok ()))) := by
  obtain ⟨lk, rm, rs, rv, ev⟩ := env
  refine ⟨?_, ?_, ?_⟩
  · intro e he
    unfold validate_signature
    rw [he]
    cases e <;> rfl
  · intro hk
    have hk' : lk = .ok .otherKey := hk
    subst hk'
    rcases rm with he2 | u2
    · cases he2 <;> rfl
    rcases rs with he3 | u3
    · cases he3 <;> rfl
    rfl
  · rcases lk with he | k
    · cases he <;>
        simp [validate_signature, validateSignatureTry, bind, Except.instMonad, Except.bind]
    · cases k <;>
        rcases rm with he2 | u2 <;> (try cases he2) <;>
        rcases rs with he3 | u3 <;> (try cases he3) <;>
        rcases rv with he4 | u4 <;> (try cases he4) <;>
        rcases ev with he5 | u5 <;> (try cases he5) <;>
        simp [validate_signature, validateSignatureTry, bind, Except.instMonad, Except.bind,
          pure, Except.pure]

/-- Witness for C5 on an environment whose key parses to an unsupported
type. -/
theorem C5_validate_signature_fail_closed_witness :
    validate_signature ⟨.ok .otherKey, .ok (), .ok (), .ok (), .ok ()⟩ = false :=
  (C5_validate_signature_fail_closed ⟨.ok .otherKey, .ok (), .ok (), .ok (), .ok ()⟩).2.1 rfl

/-- C6 (counterexample): two valid upload requests handled back to back
— the only way the agent can take them, since `upload_ota` contains no
lock and no busy path — are both processed to completion: the second
request is not rejected with any busy outcome, it succeeds and changes
persistent state again. -/
theorem C6_counterexample :
    (upload_ota pkgGood (upload_ota pkgGood stFresh (fun _ => true)).state
        (fun _ => true)).reply = ⟨"Update successful", 200⟩ ∧
    (upload_ota pkgGood (upload_ota pkgGood stFresh (fun _ => true)).state
        (fun _ => true)).state ≠ (upload_ota pkgGood stFresh (fun _ => true)).state := by
  decide

/-- C6 (amended): `upload_ota` performs no concurrency control of its
own: every reply it can produce is one of the eleven fixed replies of
its return points, and none of them is a busy rejection — serialization
of simultaneous requests is left to the single-threaded HTTP server. -/
theorem C6_no_busy_rejection (req : UploadRequest) (st : DeviceState)
    (running : Nat → Bool) :
    (upload_ota req st running).reply ∈ uploadReplies := by
  rcases upload_ota_outcome req st running with h | ⟨bin, ht, vt, _, _, _, _, h⟩ |
    ⟨bin, _, _, h⟩
  · exact h.2.2
  · rw [h]; simp [uploadReplies]
  · rw [h]; simp [uploadReplies]

/-- C7: the Recorded Digest and Recorded Version are written only when
the health probe's deciding check reports the service active, and then
both are replaced together with the candidate's digest and version
values; on every other path both files are left exactly as they were. -/
theorem C7_commit_only_after_health (req : UploadRequest) (st : DeviceState)
    (running : Nat → Bool) :
    ((upload_ota req st running).state.hashFile = st.hashFile ∧
     (upload_ota req st running).state.versionFile = st.versionFile) ∨
    (uploadProbeResult running = true ∧
     ∃ ht vt, req.hashText = some ht ∧ req.versionText = some vt ∧
       (upload_ota req st running).state.hashFile = some ht ∧
       (upload_ota req st running).state.versionFile = some vt ∧
       (upload_ota req st running).reply = ⟨"Update successful", 200⟩) := by
  rcases upload_ota_outcome req st running with h | ⟨bin, ht, vt, hb, hh, hv, hp, h⟩ |
    ⟨bin, hb, hp, h⟩
  · left
    rw [h.1]
    exact ⟨rfl, rfl⟩
  · right
    refine ⟨hp, ht, vt, hh, hv, ?_, ?_, ?_⟩ <;> rw [h]
  · left
    rw [h]
    constructor <;> simp [restore_backup_spec, backup_current_spec]

/-- C8: a digest mismatch and a signature-verification failure are
reported to the caller with the identical message and status code, so
the two gate failures are indistinguishable from outside. -/
theorem C8_indistinguishable_failures
    (req1 : UploadRequest) (st1 : DeviceState) (run1 : Nat → Bool)
    (req2 : UploadRequest) (st2 : DeviceState) (run2 : Nat → Bool)
    (bin1 : List Nat) (ht1 vt1 : String) (sb1 : List Nat)
    (bin2 : List Nat) (ht2 vt2 : String) (sb2 : List Nat)
    (h1file : req1.hasFile = true)
    (h1ct : req1.contentType = "application/x-zip-compressed")
    (h1key : st1.verifyKeyExists = true)
    (h1zip : req1.zipOk = true)
    (h1bin : req1.binary = some bin1)
    (h1hash : req1.hashText = some ht1)
    (h1ver : req1.versionText = some vt1)
    (h1sig : req1.sigFile = some sb1)
    (hmm1 : pyStrip ht1 ≠ sha256sum bin1)
    (h2file : req2.hasFile = true)
    (h2ct : req2.contentType = "application/x-zip-compressed")
    (h2key : st2.verifyKeyExists = true)
    (h2zip : req2.zipOk = true)
    (h2bin : req2.binary = some bin2)
    (h2hash : req2.hashText = some ht2)
    (h2ver : req2.versionText = some vt2)
    (h2sig : req2.sigFile = some sb2)
    (hok2 : pyStrip ht2 = sha256sum bin2)
    (hsig2 : validate_signature req2.sigEnv = false) :
    (upload_ota req1 st1 run1).reply = (upload_ota req2 st2 run2).reply ∧
    (upload_ota req1 st1 run1).reply = ⟨"SHA256 hash mismatch", 400⟩ := by
  rw [uploadGateFail req1 st1 run1 bin1 ht1 vt1 sb1 h1file h1ct h1key h1zip h1bin h1hash
    h1ver h1sig (Or.inl hmm1),
    uploadGateFail req2 st2 run2 bin2 ht2 vt2 sb2 h2file h2ct h2key h2zip h2bin h2hash
    h2ver h2sig (Or.inr hsig2)]
  exact ⟨rfl, rfl⟩

/-- Witness for C8: a concrete integrity failure and a concrete
authenticity failure produce the same reply. -/
theorem C8_indistinguishable_failures_witness :
    (upload_ota pkgBadHash stCommitted (fun _ => false)).reply =
      (upload_ota pkgBadSig stCommitted (fun _ => false)).reply ∧
    (upload_ota pkgBadHash stCommitted (fun _ => false)).reply =
      ⟨"SHA256 hash mismatch", 400⟩ :=
  C8_indistinguishable_failures pkgBadHash stCommitted (fun _ => false) pkgBadSig
    stCommitted (fun _ => false) [] "ffff" "v1.0.0" [1] [] (sha256hexBytes []) "v1.0.0" [1]
    rfl rfl rfl rfl rfl rfl rfl rfl (by decide) rfl rfl rfl rfl rfl rfl rfl rfl
    (by decide) rfl

/-- C9: digesting is a pure function of the content, independent of the
chunk size used internally: the agent's 4096-byte streaming and the
package tool's 8192-byte streaming both equal the SHA-256 hex digest of
the whole byte list, and hence each other; digesting the same bytes
twice gives the same digest. -/
theorem C9_digest_chunk_independent (content : List Nat) :
    sha256sum content = sha256hexBytes content ∧
    get_file_hash content = sha256hexBytes content ∧
    sha256sum content = get_file_hash content ∧
    sha256sum content = sha256sum content := by
  have h4 : sha256sum content = sha256hexBytes content := by
    unfold sha256sum
    rw [foldl_append_eq, List.nil_append]
    have h := chunksOf_flatten 4095 content
    norm_num at h
    rw [h]
  have h8 : get_file_hash content = sha256hexBytes content := by
    unfold get_file_hash
    rw [foldl_append_eq, List.nil_append]
    have h := chunksOf_flatten 8191 content
    norm_num at h
    rw [h]
  exact ⟨h4, h8, by rw [h4, h8], rfl⟩

/-- C10: when no Backup Binary exists, `restore_backup` is a no-op; so
on a first-ever install attempt (no prior Active Binary, no recorded
metadata) whose candidate passes verification but never reports healthy,
the failed candidate is left in place as the Active Binary, the service
is started against it, and Recorded Digest and Recorded Version remain
absent, with the rollback failure reported to the caller. -/
theorem C10_no_backup_rollback (req : UploadRequest) (st : DeviceState)
    (running : Nat → Bool) (bin : List Nat) (hashText versionText : String)
    (sigBytes : List Nat)
    (happ : st.app = none)
    (hbak : st.backup = none)
    (hhf : st.hashFile = none)
    (hvf : st.versionFile = none)
    (hfile : req.hasFile = true)
    (hct : req.contentType = "application/x-zip-compressed")
    (hkey : st.verifyKeyExists = true)
    (hzip : req.zipOk = true)
    (hbin : req.binary = some bin)
    (hhash : req.hashText = some hashText)
    (hver : req.versionText = some versionText)
    (hsig : req.sigFile = some sigBytes)
    (hmatch : pyStrip hashText = sha256sum bin)
    (hsigok : validate_signature req.sigEnv = true)
    (hdown : ∀ i, running i = false) :
    (∀ s : DeviceState, s.backup = none → restore_backup s = s) ∧
    (upload_ota req st running).state.app = some bin ∧
    (upload_ota req st running).state.backup = none ∧
    (upload_ota req st running).state.hashFile = none ∧
    (upload_ota req st running).state.versionFile = none ∧
    (upload_ota req st running).events = [.stop, .start, .start] ∧
    (upload_ota req st running).reply = ⟨"Failed to start new app, rollback done", 500⟩ := by
  have hp : uploadProbeResult running = false := hdown _
  have hnoop : ∀ s : DeviceState, s.backup = none → restore_backup s = s := by
    intro s hs
    obtain ⟨md, ap, bk, hf, vf, vk⟩ := s
    have hb : bk = none := hs
    subst hb
    rfl
  refine ⟨hnoop, ?_⟩
  rw [uploadGatePass req st running bin hashText versionText sigBytes hfile hct hkey hzip
    hbin hhash hver hsig hmatch hsigok, if_neg (by simp [hp])]
  simp [restore_backup_spec, backup_current_spec, happ, hbak, hhf, hvf]

/-- Witness for C10 on a fresh device and a verified candidate whose
service never reports active. -/
theorem C10_no_backup_rollback_witness :
    (∀ s : DeviceState, s.backup = none → restore_backup s = s) ∧
    (upload_ota pkgGood stFresh (fun _ => false)).state.app = some [] ∧
    (upload_ota pkgGood stFresh (fun _ => false)).state.backup = none ∧
    (upload_ota pkgGood stFresh (fun _ => false)).state.hashFile = none ∧
    (upload_ota pkgGood stFresh (fun _ => false)).state.versionFile = none ∧
    (upload_ota pkgGood stFresh (fun _ => false)).events = [.stop, .start, .start] ∧
    (upload_ota pkgGood stFresh (fun _ => false)).reply =
      ⟨"Failed to start new app, rollback done", 500⟩ :=
  C10_no_backup_rollback pkgGood stFresh (fun _ => false) [] (sha256hexBytes []) "v1.0.0"
    [1] rfl rfl rfl rfl rfl rfl rfl rfl rfl rfl rfl rfl (by decide) rfl (fun _ => rfl)

end KaonicOta
